import Mathlib

/-!
Verification of the schedule-voice-clock announcement engine and settings
store, shallowly embedded from `src/src/scheduler.py` and `src/src/config.py`.

JSON objects are modelled as association lists with Python-dict semantics
(unique keys, in-order lookup, update-in-place-or-append on insert).
The filesystem is modelled as an abstract existence predicate on path
strings; playback is modelled as the path handed to the audio player.
-/

namespace VoiceClock

/-- A JSON scalar value, the value space of the settings file
(`config.py` persists strings, integers and booleans; `null` covers
JSON null). -/
inductive JValue where
  | str (s : String)
  | num (n : Int)
  | bool (b : Bool)
  | null
deriving DecidableEq

/-- A JSON object / Python dict: association list with unique keys. -/
abbrev Dict := List (String × JValue)

/-- Python dict lookup `d.get(k)`: first (and, with unique keys, only)
binding of `k`. -/
def dictGet : Dict → String → Option JValue
  | [], _ => none
  | (k', v) :: rest, k => if k' = k then some v else dictGet rest k

/-- Python dict update `d[k] = v`: replace the binding of `k` in place if
present, else append a new binding at the end. -/
def dictInsert : Dict → String → JValue → Dict
  | [], k, v => [(k, v)]
  | (k', v') :: rest, k, v =>
      if k' = k then (k, v) :: rest
      else (k', v') :: dictInsert rest k v

/-- Python dict union `\x7b**d1, **d2\x7d`: start from `d1` and insert every
binding of `d2`, so `d2`'s values win on common keys and `d2`'s extra keys
are appended. -/
def dictMerge (d1 d2 : Dict) : Dict :=
  d2.foldl (fun acc kv => dictInsert acc kv.1 kv.2) d1

namespace ConfigManager

/-- The record `ConfigManager.DEFAULT_SETTINGS` from `config.py` lines 18-22. -/
def DEFAULT_SETTINGS : Dict :=
  [("language", JValue.str "en"), ("interval", JValue.num 60),
   ("muted", JValue.bool false)]

/-- The state of the settings file as `load` observes it: the file is
missing, or its content parses as a JSON object (`parsed`), or opening or
parsing it fails — invalid JSON raising `json.JSONDecodeError`, or an
unreadable file raising `IOError` (`corrupt`). A file holding valid
non-object JSON is outside this model (the source would raise `TypeError`
on the dict union; no claim concerns that input). -/
inductive LoadInput where
  | missing
  | parsed (d : Dict)
  | corrupt
deriving DecidableEq

/-- Embeds `ConfigManager.load` from `config.py` lines 35-64, as the settings
record it leaves in memory and returns. A missing file and a corrupt file
both yield a copy of the defaults (the source additionally writes the
defaults back to disk, a side effect on the file only); a parsed object is
merged over the defaults, `\x7b**DEFAULT_SETTINGS, **loaded\x7d`. The
function is total: no exception escapes (the `except` clause catches
`json.JSONDecodeError` and `IOError`, and the nested `save` catches its
own `IOError`). -/
def load : LoadInput → Dict
  | LoadInput.missing => DEFAULT_SETTINGS
  | LoadInput.corrupt => DEFAULT_SETTINGS
  | LoadInput.parsed d => dictMerge DEFAULT_SETTINGS d

/-- Outcome of the attempt to write the settings file in `save`
(directory creation plus `json.dump`): success, or an `IOError`. -/
inductive WriteResult where
  | ok
  | ioError
deriving DecidableEq

/-- What `ConfigManager.save` leaves behind: its boolean return value and
the in-memory `_settings` record afterwards. -/
structure SaveResult where
  ok : Bool
  memory : Dict
deriving DecidableEq

/-- Embeds `ConfigManager.save` from `config.py` lines 66-91. `memory` is
`self._settings` before the call, `settings` the optional argument. The
assignment `self._settings = settings` happens before the `try` block, so
the in-memory record is the value being saved even when the disk write
fails; an `IOError` is caught and turned into a `False` return. -/
def save (memory : Dict) (settings : Option Dict) (w : WriteResult) :
    SaveResult :=
  let mem := settings.getD memory
  { ok := match w with | WriteResult.ok => true | WriteResult.ioError => false,
    memory := mem }

/-- Embeds `ConfigManager.set` from `config.py` lines 106-117: update the key in
memory unconditionally, then persist when `auto_save` (the default) is
true. Returns the in-memory record afterwards together with the outcome
of the save attempt (`ok := true` when no save was attempted). -/
def set (memory : Dict) (k : String) (v : JValue) (autoSave : Bool)
    (w : WriteResult) : SaveResult :=
  let mem := dictInsert memory k v
  if autoSave then save mem none w else { ok := true, memory := mem }

/-- The settings file after a successful `save settings`: `json.dump`
writes the record and `json.load` parses the same object tree back, so
the observable file state is `parsed settings`. -/
def fileAfterSave (settings : Dict) : LoadInput :=
  LoadInput.parsed settings

end ConfigManager

namespace TimeAnnouncer

/-- The debounce tracker of `TimeAnnouncer` (`scheduler.py` lines 40-42):
the last hour and minute at which audio was dispatched, held as Python
ints so that `-1` can serve as the "never played" sentinel. -/
structure DebounceState where
  lastPlayedHour : Int
  lastPlayedMinute : Int
deriving DecidableEq

/-- The debounce state set by `__init__` and by `reset_debounce`
(`scheduler.py` lines 41-42 and 130-133): both fields at the sentinel. -/
def initState : DebounceState := { lastPlayedHour := -1, lastPlayedMinute := -1 }

/-- Embeds `TimeAnnouncer._already_played` from `scheduler.py` lines 78-90. -/
def already_played (st : DebounceState) (hour minute : Nat) : Bool :=
  st.lastPlayedHour == (hour : Int) && st.lastPlayedMinute == (minute : Int)

/-- The 24-to-12 hour conversion inside `_play_time_audio`
(`scheduler.py` lines 100-103): `hour % 12`, with `0` replaced by `12`. -/
def hour12 (hour : Nat) : Nat :=
  let h := hour % 12
  if h = 0 then 12 else h

/-- Modelled from the spec: the hour mapping the spec states for
`ResolveAndPlay` — "convert hour_24 to 12-hour form (0 maps to 12; 13-23
map to 1-11)", with 12 mapping to 12 — written from the spec's words for
comparison with the source's `hour12`. -/
def spec_hour12 (hour : Nat) : Nat :=
  if hour = 0 then 12
  else if hour ≤ 12 then hour
  else hour - 12

/-- Python's `f"\x7bn:02d\x7d"` for a natural number: decimal digits,
left-padded with `0` to width two. -/
def pad2 (n : Nat) : String :=
  if n < 10 then "0" ++ toString n else toString n

/-- The primary audio filename built by `_play_time_audio`
(`scheduler.py` line 106): `f"\x7bhour_12:02d\x7d_\x7bminute:02d\x7d.ogg"`. -/
def timeFilename (hour minute : Nat) : String :=
  pad2 (hour12 hour) ++ "_" ++ pad2 minute ++ ".ogg"

/-- The primary audio path (`scheduler.py` line 107):
`assets_dir / "audio" / language / filename`. -/
def oggPath (assetsDir language : String) (hour minute : Nat) : String :=
  assetsDir ++ "/audio/" ++ language ++ "/" ++ timeFilename hour minute

/-- The fallback path (`scheduler.py` line 114):
`audio_path.with_suffix(".mp3")`. The stem `HH_MM` holds only digits and
an underscore, so replacing the suffix yields the same name with `.mp3`. -/
def mp3Path (assetsDir language : String) (hour minute : Nat) : String :=
  assetsDir ++ "/audio/" ++ language ++ "/" ++
    (pad2 (hour12 hour) ++ "_" ++ pad2 minute ++ ".mp3")

/-- What one call to `_play_time_audio` does: hand a path to
`self.player.play`, or find neither candidate file and only log a
warning (`scheduler.py` line 119). -/
inductive PlayOutcome where
  | played (path : String)
  | missing
deriving DecidableEq

/-- Embeds `TimeAnnouncer._play_time_audio` from `scheduler.py` lines 92-119.
`fs` is the filesystem's `Path.exists` observation. The function is
total: when neither candidate exists it logs and returns, raising
nothing. -/
def play_time_audio (fs : String → Bool) (assetsDir language : String)
    (hour minute : Nat) : PlayOutcome :=
  if fs (oggPath assetsDir language hour minute) then
    PlayOutcome.played (oggPath assetsDir language hour minute)
  else if fs (mp3Path assetsDir language hour minute) then
    PlayOutcome.played (mp3Path assetsDir language hour minute)
  else
    PlayOutcome.missing

/-- What one call to `check_and_announce` leaves behind: the debounce
state afterwards, the dispatch to `_play_time_audio` when one happened,
and the boolean returned to the GLib timeout source. -/
structure TickResult where
  state : DebounceState
  dispatched : Option PlayOutcome
  cont : Bool
deriving DecidableEq

/-- Embeds `TimeAnnouncer.check_and_announce` from `scheduler.py` lines 46-76.
`muted`, `interval` and `language` are the values read from the config;
`hour` and `minute` are `datetime.now()`'s fields. The interval test is
`current_minute % interval == 0`; the engine performs no validation of
`interval` (Python raises `ZeroDivisionError` at `interval = 0`, so the
model is faithful only for positive intervals). The debounce fields are
written before `_play_time_audio` runs, and the function returns `True`
on every path. -/
def check_and_announce (muted : Bool) (interval : Nat) (language : String)
    (fs : String → Bool) (assetsDir : String) (st : DebounceState)
    (hour minute : Nat) : TickResult :=
  if muted then
    { state := st, dispatched := none, cont := true }
  else if minute % interval == 0 then
    if already_played st hour minute then
      { state := st, dispatched := none, cont := true }
    else
      { state := { lastPlayedHour := (hour : Int),
                   lastPlayedMinute := (minute : Int) },
        dispatched := some (play_time_audio fs assetsDir language hour minute),
        cont := true }
  else
    { state := st, dispatched := none, cont := true }

/-- Embeds `TimeAnnouncer.force_announce` from `scheduler.py` lines 121-128:
dispatch `_play_time_audio` for the current time without touching the
debounce fields. Returns the (unchanged) state and the dispatch. -/
def force_announce (fs : String → Bool) (assetsDir language : String)
    (st : DebounceState) (hour minute : Nat) : DebounceState × PlayOutcome :=
  (st, play_time_audio fs assetsDir language hour minute)

/-- One externally driven entry into the engine: a timer tick (with the
config values and wall-clock time it observes) or a `reset_debounce`
call. -/
inductive EngineEvent where
  | tick (muted : Bool) (interval : Nat) (hour minute : Nat)
  | reset
deriving DecidableEq

/-- Run the engine over a sequence of events from a given debounce
state, collecting the `(hour, minute)` pairs for which playback was
dispatched, in order. `reset` is `reset_debounce` (`scheduler.py`
lines 130-133). -/
def runEngine (fs : String → Bool) (assetsDir language : String) :
    DebounceState → List EngineEvent → DebounceState × List (Nat × Nat)
  | st, [] => (st, [])
  | _, EngineEvent.reset :: evs => runEngine fs assetsDir language initState evs
  | st, EngineEvent.tick muted interval hour minute :: evs =>
      let r := check_and_announce muted interval language fs assetsDir st
        hour minute
      let rest := runEngine fs assetsDir language r.state evs
      (rest.1,
       (match r.dispatched with
        | some _ => [(hour, minute)]
        | none => []) ++ rest.2)

end TimeAnnouncer

/-! ### Association-list lemmas for the settings merge -/

lemma dictMerge_cons (d1 : Dict) (kv : String × JValue) (d2 : Dict) :
    dictMerge d1 (kv :: d2) = dictMerge (dictInsert d1 kv.1 kv.2) d2 := rfl

lemma dictGet_dictInsert (d : Dict) (k k' : String) (v : JValue) :
    dictGet (dictInsert d k v) k' = if k = k' then some v else dictGet d k' := by
  induction d with
  | nil => simp [dictInsert, dictGet]
  | cons a rest ih =>
      obtain ⟨a1, a2⟩ := a
      by_cases h : a1 = k
      · subst h
        simp only [dictInsert, if_pos rfl, dictGet]
        split_ifs <;> simp_all
      · simp only [dictInsert, if_neg h, dictGet, ih]
        split_ifs <;> simp_all

lemma dictGet_eq_none_of_not_mem (d : Dict) (k : String)
    (h : k ∉ d.map Prod.fst) : dictGet d k = none := by
  induction d with
  | nil => rfl
  | cons a rest ih =>
      obtain ⟨a1, a2⟩ := a
      simp only [List.map_cons, List.mem_cons] at h
      push_neg at h
      simp [dictGet, ih h.2, h.1.symm]

lemma dictGet_dictMerge_of_none (d1 d2 : Dict) (k : String)
    (h : dictGet d2 k = none) :
    dictGet (dictMerge d1 d2) k = dictGet d1 k := by
  induction d2 generalizing d1 with
  | nil => rfl
  | cons a rest ih =>
      obtain ⟨a1, a2⟩ := a
      simp only [dictGet] at h
      by_cases h1 : a1 = k
      · simp [h1] at h
      · rw [dictMerge_cons, ih (dictInsert d1 a1 a2) (by simpa [h1] using h),
          dictGet_dictInsert]
        simp [h1]

lemma dictGet_dictMerge_of_some (d1 d2 : Dict) (k : String) (v : JValue)
    (hnd : (d2.map Prod.fst).Nodup) (h : dictGet d2 k = some v) :
    dictGet (dictMerge d1 d2) k = some v := by
  induction d2 generalizing d1 with
  | nil => simp [dictGet] at h
  | cons a rest ih =>
      obtain ⟨a1, a2⟩ := a
      simp only [List.map_cons, List.nodup_cons] at hnd
      simp only [dictGet] at h
      by_cases h1 : a1 = k
      · subst h1
        rw [if_pos rfl] at h
        obtain rfl : a2 = v := Option.some.inj h
        rw [dictMerge_cons,
          dictGet_dictMerge_of_none _ _ _ (dictGet_eq_none_of_not_mem rest a1 hnd.1),
          dictGet_dictInsert]
        simp
      · rw [dictMerge_cons]
        exact ih (dictInsert d1 a1 a2) hnd.2 (by simpa [h1] using h)

/-! ### Settings-store claims -/

/-- Claim C6: for every file content that is not valid JSON, or that
cannot be read, `ConfigManager.load` raises nothing (the embedded `load`
is total, mirroring the caught `json.JSONDecodeError` / `IOError`) and
yields exactly the baseline defaults: language="en", interval=60,
muted=false. -/
theorem ConfigManager.load_corrupt_defaults :
    ConfigManager.load ConfigManager.LoadInput.corrupt
      = ConfigManager.DEFAULT_SETTINGS
    ∧ dictGet (ConfigManager.load ConfigManager.LoadInput.corrupt) "language"
      = some (JValue.str "en")
    ∧ dictGet (ConfigManager.load ConfigManager.LoadInput.corrupt) "interval"
      = some (JValue.num 60)
    ∧ dictGet (ConfigManager.load ConfigManager.LoadInput.corrupt) "muted"
      = some (JValue.bool false) := by
  refine ⟨rfl, ?_, ?_, ?_⟩ <;> decide

/-- Claim C7: saving the record (language:"bn", interval:30, muted:true)
succeeds with `True`, and loading the file a successful save leaves
behind yields a record equal to the one saved. -/
theorem ConfigManager.save_load_roundtrip :
    (ConfigManager.save ConfigManager.DEFAULT_SETTINGS
        (some [("language", JValue.str "bn"), ("interval", JValue.num 30),
               ("muted", JValue.bool true)]) ConfigManager.WriteResult.ok).ok
      = true
    ∧ ConfigManager.load
        (ConfigManager.fileAfterSave
          [("language", JValue.str "bn"), ("interval", JValue.num 30),
           ("muted", JValue.bool true)])
      = [("language", JValue.str "bn"), ("interval", JValue.num 30),
         ("muted", JValue.bool true)] :=
  ⟨rfl, by decide⟩

/-- Claim C8: for every persisted file parsing to a JSON object `d`
(whose keys, as in any Python dict, are free of duplicates), the loaded
record gives every key absent from `d` — in particular any missing
baseline key — its `DEFAULT_SETTINGS` value, and gives every key present
in `d`, known or unknown, its persisted value; the record a following
`save` writes back is the loaded record verbatim. -/
theorem ConfigManager.load_merge_defaults (d : Dict)
    (hnd : (d.map Prod.fst).Nodup) :
    (∀ k, dictGet d k = none →
      dictGet (ConfigManager.load (ConfigManager.LoadInput.parsed d)) k
        = dictGet ConfigManager.DEFAULT_SETTINGS k)
    ∧ (∀ k v, dictGet d k = some v →
      dictGet (ConfigManager.load (ConfigManager.LoadInput.parsed d)) k
        = some v)
    ∧ (ConfigManager.save
        (ConfigManager.load (ConfigManager.LoadInput.parsed d)) none
        ConfigManager.WriteResult.ok).memory
      = ConfigManager.load (ConfigManager.LoadInput.parsed d) := by
  refine ⟨?_, ?_, rfl⟩
  · intro k hk
    exact dictGet_dictMerge_of_none _ _ _ hk
  · intro k v hk
    exact dictGet_dictMerge_of_some _ _ _ _ hnd hk

/-- Witness for C8 at the concrete file
(language:"bn", extra:5): the missing key "interval" defaults, the
unknown key "extra" is preserved. -/
theorem ConfigManager.load_merge_defaults_witness :
    (([("language", JValue.str "bn"), ("extra", JValue.num 5)] : Dict).map
        Prod.fst).Nodup
    ∧ dictGet (ConfigManager.load (ConfigManager.LoadInput.parsed
        [("language", JValue.str "bn"), ("extra", JValue.num 5)])) "interval"
      = dictGet ConfigManager.DEFAULT_SETTINGS "interval"
    ∧ dictGet (ConfigManager.load (ConfigManager.LoadInput.parsed
        [("language", JValue.str "bn"), ("extra", JValue.num 5)])) "extra"
      = some (JValue.num 5) :=
  ⟨by decide,
   (ConfigManager.load_merge_defaults
      [("language", JValue.str "bn"), ("extra", JValue.num 5)]
      (by decide)).1 "interval" (by decide),
   (ConfigManager.load_merge_defaults
      [("language", JValue.str "bn"), ("extra", JValue.num 5)]
      (by decide)).2.1 "extra" (JValue.num 5) (by decide)⟩

/-- Claim C9: when the disk write fails with an IOError, `save` returns
`False` instead of raising (the embedded `save` is total), and the
in-memory record is the value that was being saved; `set` updates the
in-memory value unconditionally, so the in-memory settings stay
authoritative when the persist fails. -/
theorem ConfigManager.save_failure_memory (memory s : Dict) (k : String)
    (v : JValue) :
    (ConfigManager.save memory (some s) ConfigManager.WriteResult.ioError).ok
      = false
    ∧ (ConfigManager.save memory (some s)
        ConfigManager.WriteResult.ioError).memory = s
    ∧ (ConfigManager.set memory k v true
        ConfigManager.WriteResult.ioError).memory = dictInsert memory k v
    ∧ (ConfigManager.set memory k v true
        ConfigManager.WriteResult.ioError).ok = false :=
  ⟨rfl, rfl, rfl, rfl⟩

/-! ### Announcement-engine lemmas -/

namespace TimeAnnouncer

lemma initState_not_played (hour minute : Nat) :
    already_played initState hour minute = false := by
  simp only [already_played, initState, Bool.and_eq_false_iff, beq_eq_false_iff_ne,
    ne_eq]
  omega

lemma check_from_played (muted : Bool) (interval : Nat) (language : String)
    (fs : String → Bool) (assetsDir : String) (hour minute : Nat) :
    check_and_announce muted interval language fs assetsDir
        { lastPlayedHour := (hour : Int), lastPlayedMinute := (minute : Int) }
        hour minute
      = { state := { lastPlayedHour := (hour : Int),
                     lastPlayedMinute := (minute : Int) },
          dispatched := none, cont := true } := by
  unfold check_and_announce
  split_ifs <;> simp_all [already_played]

lemma check_dispatch_iff (muted : Bool) (interval : Nat) (language : String)
    (fs : String → Bool) (assetsDir : String) (st : DebounceState)
    (hour minute : Nat) :
    (check_and_announce muted interval language fs assetsDir st
        hour minute).dispatched.isSome
      = (!muted && (minute % interval == 0)
          && !(already_played st hour minute)) := by
  unfold check_and_announce
  split_ifs <;> simp_all

lemma check_state_cases (muted : Bool) (interval : Nat) (language : String)
    (fs : String → Bool) (assetsDir : String) (st : DebounceState)
    (hour minute : Nat) :
    (check_and_announce muted interval language fs assetsDir st
        hour minute).state = st
      ∧ (check_and_announce muted interval language fs assetsDir st
          hour minute).dispatched = none
    ∨ (check_and_announce muted interval language fs assetsDir st
        hour minute).state
        = { lastPlayedHour := (hour : Int), lastPlayedMinute := (minute : Int) }
      ∧ (check_and_announce muted interval language fs assetsDir st
          hour minute).dispatched.isSome = true := by
  unfold check_and_announce
  split_ifs <;> simp

lemma runEngine_nil (fs : String → Bool) (assetsDir language : String)
    (st : DebounceState) :
    runEngine fs assetsDir language st [] = (st, []) := rfl

lemma runEngine_reset (fs : String → Bool) (assetsDir language : String)
    (st : DebounceState) (evs : List EngineEvent) :
    runEngine fs assetsDir language st (EngineEvent.reset :: evs)
      = runEngine fs assetsDir language initState evs := rfl

lemma runEngine_tick (fs : String → Bool) (assetsDir language : String)
    (st : DebounceState) (muted : Bool) (interval hour minute : Nat)
    (evs : List EngineEvent) :
    runEngine fs assetsDir language st
        (EngineEvent.tick muted interval hour minute :: evs)
      = ((runEngine fs assetsDir language
            (check_and_announce muted interval language fs assetsDir st
              hour minute).state evs).1,
         (if (check_and_announce muted interval language fs assetsDir st
              hour minute).dispatched.isSome
          then [(hour, minute)] else [])
           ++ (runEngine fs assetsDir language
                (check_and_announce muted interval language fs assetsDir st
                  hour minute).state evs).2) := by
  simp only [runEngine]
  cases h : (check_and_announce muted interval language fs assetsDir st
      hour minute).dispatched <;> simp [h]

lemma runEngine_no_replay (fs : String → Bool) (assetsDir language : String)
    (hour minute : Nat) (evs : List EngineEvent)
    (hall : ∀ e ∈ evs, ∃ mu i, e = EngineEvent.tick mu i hour minute) :
    runEngine fs assetsDir language
        { lastPlayedHour := (hour : Int), lastPlayedMinute := (minute : Int) }
        evs
      = ({ lastPlayedHour := (hour : Int), lastPlayedMinute := (minute : Int) },
         []) := by
  induction evs with
  | nil => rfl
  | cons e rest ih =>
      obtain ⟨mu, i, rfl⟩ := hall e (List.mem_cons_self e rest)
      have hrest := ih (fun e' he' => hall e' (List.mem_cons_of_mem _ he'))
      rw [runEngine_tick, check_from_played]
      simp [hrest]

lemma plays_le_one (fs : String → Bool) (assetsDir language : String)
    (hour minute : Nat) (evs : List EngineEvent) :
    ∀ st : DebounceState,
      (∀ e ∈ evs, ∃ mu i, e = EngineEvent.tick mu i hour minute) →
      (runEngine fs assetsDir language st evs).2.length ≤ 1 := by
  induction evs with
  | nil =>
      intro st _
      simp [runEngine_nil]
  | cons e rest ih =>
      intro st hall
      obtain ⟨mu, i, rfl⟩ := hall e (List.mem_cons_self e rest)
      have hrest := fun e' he' => hall e' (List.mem_cons_of_mem _ he')
      rw [runEngine_tick]
      rcases check_state_cases mu i language fs assetsDir st hour minute with
        ⟨hs, hd⟩ | ⟨hs, hd⟩
      · rw [hs, hd]
        simpa using ih st hrest
      · rw [hs, hd,
          runEngine_no_replay fs assetsDir language hour minute rest hrest]
        simp

/-! ### Announcement-engine claims -/

/-- Claim C5: when muted, `check_and_announce` dispatches no playback,
leaves the debounce state unchanged, and returns `True` so the tick
source continues — for every time, interval-matching minutes included,
and for every interval value (the muted test precedes the modulo). -/
theorem muted_tick_noop (interval : Nat) (language : String)
    (fs : String → Bool) (assetsDir : String) (st : DebounceState)
    (hour minute : Nat) :
    check_and_announce true interval language fs assetsDir st hour minute
      = { state := st, dispatched := none, cont := true } := rfl

/-- Claim C1: with muted=false and a debounce state differing from the
current pair, a call dispatches an announcement iff
`minute % interval == 0` — for every positive interval, the three
supported values 15, 30, 60 included; the engine performs no validation
of the interval value. -/
theorem tick_plays_iff_interval (interval : Nat) (language : String)
    (fs : String → Bool) (assetsDir : String) (st : DebounceState)
    (hour minute : Nat) (hpos : 0 < interval)
    (hdeb : already_played st hour minute = false) :
    (check_and_announce false interval language fs assetsDir st
        hour minute).dispatched.isSome
      = (minute % interval == 0) := by
  rw [check_dispatch_iff, hdeb]
  simp

/-- Witness for C1 at interval 15, time 5:30, fresh debounce state:
30 % 15 == 0 and the announcement is dispatched. -/
theorem tick_plays_iff_interval_witness :
    0 < 15
    ∧ already_played initState 5 30 = false
    ∧ (check_and_announce false 15 "en" (fun _ => true) "assets"
        initState 5 30).dispatched.isSome = (30 % 15 == 0) :=
  ⟨by decide, by decide,
   tick_plays_iff_interval 15 "en" (fun _ => true) "assets" initState 5 30
     (by decide) (by decide)⟩

/-- Claim C3: for every in-range time, the primary filename resolved for
playback is the zero-padded `HH_MM` with the `.ogg` extension, where
`HH` is the spec's 12-hour form of the 24-hour hour: 0 and 12 both give
12, 13 gives 1, 23 gives 11, and 13-23 map to hour−12; both components
are exactly two characters wide. -/
theorem filename_resolution (hour minute : Nat) (hh : hour < 24)
    (hm : minute < 60) :
    timeFilename hour minute
      = pad2 (spec_hour12 hour) ++ "_" ++ pad2 minute ++ ".ogg"
    ∧ (pad2 (hour12 hour)).length = 2
    ∧ (pad2 minute).length = 2
    ∧ hour12 0 = 12 ∧ hour12 12 = 12 ∧ hour12 13 = 1 ∧ hour12 23 = 11
    ∧ (13 ≤ hour → hour12 hour = hour - 12) := by
  have hmap : ∀ h < 24, hour12 h = spec_hour12 h := by decide
  have hpadh : ∀ h < 24, (pad2 (hour12 h)).length = 2 := by decide
  have hpadm : ∀ m < 60, (pad2 m).length = 2 := by decide
  have hsub : ∀ h < 24, 13 ≤ h → hour12 h = h - 12 := by decide
  refine ⟨?_, hpadh hour hh, hpadm minute hm, by decide, by decide, by decide,
    by decide, hsub hour hh⟩
  unfold timeFilename
  rw [hmap hour hh]

/-- Witness for C3 at 13:45: the filename is "01_45.ogg". -/
theorem filename_resolution_witness :
    (timeFilename 13 45
      = pad2 (spec_hour12 13) ++ "_" ++ pad2 45 ++ ".ogg"
    ∧ (pad2 (hour12 13)).length = 2
    ∧ (pad2 45).length = 2
    ∧ hour12 0 = 12 ∧ hour12 12 = 12 ∧ hour12 13 = 1 ∧ hour12 23 = 11
    ∧ (13 ≤ 13 → hour12 13 = 13 - 12))
    ∧ timeFilename 13 45 = "01_45.ogg" :=
  ⟨filename_resolution 13 45 (by decide) (by decide), by decide⟩

/-- Claim C4: `_play_time_audio` plays the primary `.ogg` path when the
file exists; with the primary absent and the `.mp3` fallback present, it
plays the fallback; with neither present, no playback call is made and
nothing is raised (the embedded function is total and returns the
`missing` outcome, which the source only logs as a warning). -/
theorem play_audio_fallback (fs : String → Bool)
    (assetsDir language : String) (hour minute : Nat) :
    (fs (oggPath assetsDir language hour minute) = true →
      play_time_audio fs assetsDir language hour minute
        = PlayOutcome.played (oggPath assetsDir language hour minute))
    ∧ (fs (oggPath assetsDir language hour minute) = false →
       fs (mp3Path assetsDir language hour minute) = true →
      play_time_audio fs assetsDir language hour minute
        = PlayOutcome.played (mp3Path assetsDir language hour minute))
    ∧ (fs (oggPath assetsDir language hour minute) = false →
       fs (mp3Path assetsDir language hour minute) = false →
      play_time_audio fs assetsDir language hour minute
        = PlayOutcome.missing) := by
  unfold play_time_audio
  refine ⟨fun h1 => ?_, fun h1 h2 => ?_, fun h1 h2 => ?_⟩ <;>
    simp [h1, *]

/-- Witness for C4 at 14:00 with only the mp3 file present: the fallback
path is played. -/
theorem play_audio_fallback_witness :
    (fun p => p == mp3Path "assets" "en" 14 0)
        (oggPath "assets" "en" 14 0) = false
    ∧ (fun p => p == mp3Path "assets" "en" 14 0)
        (mp3Path "assets" "en" 14 0) = true
    ∧ play_time_audio (fun p => p == mp3Path "assets" "en" 14 0)
        "assets" "en" 14 0
      = PlayOutcome.played (mp3Path "assets" "en" 14 0) :=
  ⟨by decide, by decide,
   (play_audio_fallback (fun p => p == mp3Path "assets" "en" 14 0)
      "assets" "en" 14 0).2.1 (by decide) (by decide)⟩

/-- Claim C10: `force_announce` dispatches playback for the current
time while leaving the debounce state untouched, so a following
`check_and_announce` at the same interval-matching minute with
muted=false still dispatches: a forced announcement can be followed by a
scheduled one in the same minute. -/
theorem force_announce_frame (fs : String → Bool)
    (assetsDir language : String) (st : DebounceState)
    (interval hour minute : Nat) (hpos : 0 < interval)
    (hmod : (minute % interval == 0) = true)
    (hdeb : already_played st hour minute = false) :
    (force_announce fs assetsDir language st hour minute).1 = st
    ∧ (force_announce fs assetsDir language st hour minute).2
      = play_time_audio fs assetsDir language hour minute
    ∧ (check_and_announce false interval language fs assetsDir
        (force_announce fs assetsDir language st hour minute).1
        hour minute).dispatched
      = some (play_time_audio fs assetsDir language hour minute) := by
  refine ⟨rfl, rfl, ?_⟩
  simp [force_announce, check_and_announce, hmod, hdeb]

/-- Witness for C10 at 9:30 with interval 30 and a fresh debounce
state. -/
theorem force_announce_frame_witness :
    0 < 30
    ∧ ((30 % 30 == 0) = true)
    ∧ already_played initState 9 30 = false
    ∧ ((force_announce (fun _ => true) "assets" "en" initState 9 30).1
        = initState
      ∧ (force_announce (fun _ => true) "assets" "en" initState 9 30).2
        = play_time_audio (fun _ => true) "assets" "en" 9 30
      ∧ (check_and_announce false 30 "en" (fun _ => true) "assets"
          (force_announce (fun _ => true) "assets" "en" initState 9 30).1
          9 30).dispatched
        = some (play_time_audio (fun _ => true) "assets" "en" 9 30)) :=
  ⟨by decide, by decide, by decide,
   force_announce_frame (fun _ => true) "assets" "en" initState 30 9 30
     (by decide) (by decide) (by decide)⟩

/-- Claim C2 (counterexample): the reading "at most one playback per
distinct (hour, minute) pair between resets" fails. In the reset-free
trace tick(1:00), tick(2:00), tick(1:00) — muted=false, interval=60,
every file present — all three ticks play, so the pair (1, 0) plays
twice: the debounce remembers only the last played time, and the
announcement at 2:00 overwrites it. -/
theorem debounce_pair_counterexample :
    (runEngine (fun _ => true) "assets" "en" initState
        [EngineEvent.tick false 60 1 0, EngineEvent.tick false 60 2 0,
         EngineEvent.tick false 60 1 0]).2
      = [(1, 0), (2, 0), (1, 0)]
    ∧ List.count (1, 0)
        (runEngine (fun _ => true) "assets" "en" initState
          [EngineEvent.tick false 60 1 0, EngineEvent.tick false 60 2 0,
           EngineEvent.tick false 60 1 0]).2
      = 2 := by
  refine ⟨?_, ?_⟩ <;> decide

/-- Claim C2 (amended): two successive calls with the same (hour,
minute) play at most once; if the first of the two played, a
`reset_debounce` between them lets the second play again; and in
general, a reset-free run of consecutive calls all sharing the same
(hour, minute) plays at most once — but once a different pair has been
announced, the same pair may play again even without a reset, because
the debounce stores only the last played time. -/
theorem debounce_amended (fs : String → Bool) (assetsDir language : String)
    (st : DebounceState) (muted : Bool) (interval hour minute : Nat)
    (evs : List EngineEvent) (hpos : 0 < interval)
    (hall : ∀ e ∈ evs, ∃ mu i, 0 < i ∧ e = EngineEvent.tick mu i hour minute) :
    (runEngine fs assetsDir language st
        [EngineEvent.tick muted interval hour minute,
         EngineEvent.tick muted interval hour minute]).2.length ≤ 1
    ∧ ((runEngine fs assetsDir language st
          [EngineEvent.tick muted interval hour minute]).2.length = 1 →
        (runEngine fs assetsDir language st
          [EngineEvent.tick muted interval hour minute,
           EngineEvent.reset,
           EngineEvent.tick muted interval hour minute]).2.length = 2)
    ∧ (runEngine fs assetsDir language st evs).2.length ≤ 1 := by
  refine ⟨?_, ?_, plays_le_one fs assetsDir language hour minute evs st
    (fun e he => by obtain ⟨mu, i, _, rfl⟩ := hall e he; exact ⟨mu, i, rfl⟩)⟩
  · apply plays_le_one
    intro e he
    simp only [List.mem_cons, List.not_mem_nil, or_false] at he
    rcases he with rfl | rfl <;> exact ⟨muted, interval, rfl⟩
  · intro hone
    rw [runEngine_tick, runEngine_nil] at hone
    by_cases hb : (check_and_announce muted interval language fs assetsDir st
        hour minute).dispatched.isSome = true
    · have hb' := hb
      rw [check_dispatch_iff] at hb'
      simp only [Bool.and_eq_true, Bool.not_eq_true'] at hb'
      obtain ⟨⟨hmu, hcond⟩, -⟩ := hb'
      rw [runEngine_tick, runEngine_reset, runEngine_tick, runEngine_nil,
        if_pos hb, check_dispatch_iff, hmu, hcond, initState_not_played]
      simp
    · rw [if_neg hb] at hone
      simp at hone

/-- Witness for the amended C2 at time 3:30, interval 15, fresh state,
with the general part instantiated at the one-tick run. -/
theorem debounce_amended_witness :
    0 < 15
    ∧ ((runEngine (fun _ => true) "assets" "en" initState
        [EngineEvent.tick false 15 3 30,
         EngineEvent.tick false 15 3 30]).2.length ≤ 1
      ∧ ((runEngine (fun _ => true) "assets" "en" initState
            [EngineEvent.tick false 15 3 30]).2.length = 1 →
          (runEngine (fun _ => true) "assets" "en" initState
            [EngineEvent.tick false 15 3 30,
             EngineEvent.reset,
             EngineEvent.tick false 15 3 30]).2.length = 2)
      ∧ (runEngine (fun _ => true) "assets" "en" initState
          [EngineEvent.tick false 15 3 30]).2.length ≤ 1) :=
  ⟨by decide,
   debounce_amended (fun _ => true) "assets" "en" initState false 15 3 30
     [EngineEvent.tick false 15 3 30] (by decide)
     (fun e he => by
        simp only [List.mem_cons, List.not_mem_nil, or_false] at he
        exact ⟨false, 15, by decide, he⟩)⟩

end TimeAnnouncer

end VoiceClock
